import Mathlib

/-!
Verification of the debate-card extraction and training-data pipeline
(`src/services/documentParser.js` and `src/services/trainingDataService.js`).

Strings are modelled as `List Char`.  JavaScript regular expressions are
modelled by a small backtracking matcher (`RE` / `reMatch`) whose alternation
order, greedy/lazy star semantics and leftmost-match scanning follow the
JS engine; each concrete pattern of the source is transcribed as `RE` data.
-/

/-- ASCII-insensitive character comparison, modelling the `i` regex flag
(JS `toLowerCase` based folding on ASCII letters). -/
def ciEqChar (a b : Char) : Bool := a.toLower == b.toLower

/-- `startsWithChars needle hay`: does `hay` start with `needle` (case sensitive)? -/
def startsWithChars : List Char → List Char → Bool
  | [], _ => true
  | _ :: _, [] => false
  | n :: ns, h :: hs => n == h && startsWithChars ns hs

/-- JS `String.prototype.includes`: `needle` occurs contiguously in `hay`. -/
def listContains (hay needle : List Char) : Bool :=
  hay.tails.any (fun t => startsWithChars needle t)

/-- The character set matched by the JS regex class `\s` (also the set removed
by `String.prototype.trim`): space, tab, line terminators, and the common
Unicode whitespace code points. -/
def jsWsChar (c : Char) : Bool :=
  c == ' ' || c == '\t' || c == '\n' || c == '\r' ||
  c == '\x0b' || c == '\x0c' || c == '\u00A0' ||
  c == '\u1680' || ('\u2000' ≤ c && c ≤ '\u200A') ||
  c == '\u2028' || c == '\u2029' || c == '\u202F' ||
  c == '\u205F' || c == '\u3000' || c == '\uFEFF'

/-- JS `String.prototype.trim`. -/
def jsTrim (s : List Char) : List Char :=
  ((s.dropWhile jsWsChar).reverse.dropWhile jsWsChar).reverse

/-- Worker for `collapseWs`; the flag records whether the previous
character was whitespace (in which case the run's single space has
already been emitted). -/
def collapseWsAux : Bool → List Char → List Char
  | _, [] => []
  | inRun, c :: rest =>
    if jsWsChar c then
      if inRun then collapseWsAux true rest else ' ' :: collapseWsAux true rest
    else c :: collapseWsAux false rest

/-- Global replacement of the regex `\s+` by a single space
(`.replace(/\s+/g, ' ')`). -/
def collapseWs (s : List Char) : List Char := collapseWsAux false s

/-- Global replacement of a literal pattern (`.replace(/lit/g, repl)`), with
leftmost non-overlapping matches; the replacement text is not rescanned.
The fuel argument is bounded by the input length (each step consumes at
least one input character; the source patterns are non-empty literals). -/
def replaceAllLitAux : Nat → List Char → List Char → List Char → List Char
  | 0, _, _, s => s
  | fuel + 1, pat, repl, s =>
    if startsWithChars pat s && !pat.isEmpty then
      repl ++ replaceAllLitAux fuel pat repl (s.drop pat.length)
    else
      match s with
      | [] => []
      | c :: rest => c :: replaceAllLitAux fuel pat repl rest

def replaceAllLit (pat repl s : List Char) : List Char :=
  replaceAllLitAux (s.length + 1) pat repl s

/-- `DocumentParser.cleanText`: decode the six HTML entities, collapse
whitespace runs to single spaces, and trim.  (The source's `if (!text)
return ''` guard is subsumed: every step maps the empty string to itself.) -/
def cleanText (text : List Char) : List Char :=
  jsTrim (collapseWs
    (replaceAllLit "&#39;".toList ['\'']
      (replaceAllLit "&quot;".toList ['"']
        (replaceAllLit "&gt;".toList ['>']
          (replaceAllLit "&lt;".toList ['<']
            (replaceAllLit "&amp;".toList ['&']
              (replaceAllLit "&nbsp;".toList [' '] text)))))))

/-!  ### A small backtracking regex matcher

The source locates HTML constructs with JavaScript regex literals.  `RE`
transcribes exactly the constructs those literals use; `reMatch` is a
CPS backtracking matcher reproducing the JS engine's behaviour: ordered
alternation, greedy `*`/`?`, lazy `*?`, single-slot capture group, and
full backtracking.  Stars carry fuel; `reFuel` is large enough that fuel
never runs out on a match attempt (each star iteration must consume at
least one character). -/

inductive RE where
  | eps : RE
  | ch (p : Char → Bool) : RE
  | lit (cs : List Char) : RE
  | seq (a b : RE) : RE
  | alt (a b : RE) : RE
  | opt (r : RE) : RE
  | star (r : RE) : RE
  | lazyStar (r : RE) : RE
  | grp (r : RE) : RE

/-- Consume a case-insensitive literal from the head of the input. -/
def stripLitCI : List Char → List Char → Option (List Char)
  | [], s => some s
  | _ :: _, [] => none
  | c :: cs, x :: xs => if ciEqChar c x then stripLitCI cs xs else none

/-- `Option` alternative with a thunked second branch (so compiled
evaluation stays lazy during backtracking). -/
def optOr {β : Type} : Option β → (Unit → Option β) → Option β
  | some v, _ => some v
  | none, b => b ()

/-- CPS backtracking matcher, one fuel level: structural recursion on the
pattern; a star iteration defers to `deeper` (the matcher with one less
unit of fuel), or matches the empty iteration when the fuel is spent
(`deeper = none`, unreachable with `reFuel`).  `k` receives the rest of
the input and the current capture-slot value; the first success in JS
backtracking order wins. -/
def reMatchAux {β : Type}
    (deeper : Option (RE → List Char → Option (List Char) →
      (List Char → Option (List Char) → Option β) → Option β)) :
    RE → List Char → Option (List Char) →
      (List Char → Option (List Char) → Option β) → Option β
  | .eps, s, cap, k => k s cap
  | .ch _, [], _, _ => none
  | .ch p, c :: rest, cap, k => if p c then k rest cap else none
  | .lit cs, s, cap, k =>
    match stripLitCI cs s with
    | some rest => k rest cap
    | none => none
  | .seq a b, s, cap, k =>
    reMatchAux deeper a s cap (fun s' cap' => reMatchAux deeper b s' cap' k)
  | .alt a b, s, cap, k =>
    optOr (reMatchAux deeper a s cap k) (fun _ => reMatchAux deeper b s cap k)
  | .opt r, s, cap, k =>
    optOr (reMatchAux deeper r s cap k) (fun _ => k s cap)
  | .star r, s, cap, k =>
    match deeper with
    | none => k s cap
    | some d =>
      optOr (d r s cap (fun s' cap' =>
              if s'.length < s.length then d (.star r) s' cap' k else none))
        (fun _ => k s cap)
  | .lazyStar r, s, cap, k =>
    match deeper with
    | none => k s cap
    | some d =>
      optOr (k s cap)
        (fun _ => d r s cap (fun s' cap' =>
              if s'.length < s.length then d (.lazyStar r) s' cap' k else none))
  | .grp r, s, cap, k =>
    reMatchAux deeper r s cap (fun s' _ => k s' (some (s.take (s.length - s'.length))))

/-- The matcher with `fuel` nested star-unrolling levels. -/
def reMatch {β : Type} : Nat → RE → List Char → Option (List Char) →
    (List Char → Option (List Char) → Option β) → Option β
  | 0 => reMatchAux none
  | fuel + 1 => reMatchAux (some (reMatch fuel))

/-- Fuel that cannot be exhausted while matching a suffix of `s`
(star nesting depth in the source patterns is at most two, and every
star iteration consumes at least one character). -/
def reFuel (s : List Char) : Nat := 4 * s.length + 4

/-- Leftmost match, JS `RegExp.prototype.exec` without sticky flag:
try the pattern at each successive start position.  Returns
`(index, length, capture)`. -/
def reFindAux (re : RE) : List Char → Nat → Option (Nat × Nat × Option (List Char))
  | [], idx =>
    match reMatch (reFuel []) re [] none (fun rest cap => some (rest.length, cap)) with
    | some (rl, cap) => some (idx, 0 - rl, cap)
    | none => none
  | c :: s', idx =>
    match reMatch (reFuel (c :: s')) re (c :: s') none
        (fun rest cap => some (rest.length, cap)) with
    | some (rl, cap) => some (idx, (c :: s').length - rl, cap)
    | none => reFindAux re s' (idx + 1)

def reFind (re : RE) (s : List Char) : Option (Nat × Nat × Option (List Char)) :=
  reFindAux re s 0

/-- First match's capture group (JS `str.match(re)[1]`, `undefined` mapped
to the empty string as `cleanText` does). -/
def reFindCap (re : RE) (s : List Char) : Option (List Char) :=
  match reFind re s with
  | some (_, _, cap) => some (cap.getD [])
  | none => none

/-- `substring(a, a + len)`. -/
def listSlice (l : List Char) (a b : Nat) : List Char :=
  (l.drop a).take (b - a)

/-- All global matches (JS `g` flag exec loop): successive leftmost
non-overlapping matches.  The source's patterns never match the empty
string; if one did, the scan stops (the JS loop would not terminate). -/
def reGlobalAux (re : RE) : Nat → List Char → Nat → List (Nat × Nat × Option (List Char))
  | 0, _, _ => []
  | fuel + 1, s, base =>
    match reFind re s with
    | none => []
    | some (i, l, cap) =>
      if l = 0 then [(base + i, l, cap)]
      else (base + i, l, cap) :: reGlobalAux re fuel (s.drop (i + l)) (base + i + l)

def reGlobal (re : RE) (s : List Char) : List (Nat × Nat × Option (List Char)) :=
  reGlobalAux re (s.length + 1) s 0

/-- Global regex replacement (JS `.replace(re, repl)` with `g` flag). -/
def replaceGlobalAux (re : RE) (repl : List Char) : Nat → List Char → List Char
  | 0, s => s
  | fuel + 1, s =>
    match reFind re s with
    | none => s
    | some (i, l, _) =>
      if l = 0 then s
      else s.take i ++ repl ++ replaceGlobalAux re repl fuel (s.drop (i + l))

def replaceGlobalRE (re : RE) (repl : List Char) (s : List Char) : List Char :=
  replaceGlobalAux re repl (s.length + 1) s

/-!  ### The source's regex literals, transcribed -/

def chE (c : Char) : RE := .ch (fun x => x == c)

/-- Case-insensitive single character (all the source regexes carry `i`). -/
def chCI (c : Char) : RE := .ch (fun x => ciEqChar c x)

def litCI (s : String) : RE := .lit s.toList

def RE.cat : List RE → RE
  | [] => .eps
  | [r] => r
  | r :: rs => .seq r (RE.cat rs)

/-- `r+` as `r r*`. -/
def plusRE (r : RE) : RE := .seq r (.star r)

/-- Ordered alternation of case-insensitive literals, e.g. `(?:em|i)`. -/
def altLits : List String → RE
  | [] => .eps
  | [s] => litCI s
  | s :: rest => .alt (litCI s) (altLits rest)

/-- `r{n}`. -/
def repN : Nat → RE → RE
  | 0, _ => .eps
  | n + 1, r => .seq r (repN n r)

/-- `[^>]`. -/
def nonGt : Char → Bool := fun c => c != '>'

/-- `[^<]`. -/
def nonLt : Char → Bool := fun c => c != '<'

/-- JS `.` (anything but a line terminator). -/
def dotCh : Char → Bool := fun c =>
  !(c == '\n' || c == '\r' || c == '\u2028' || c == '\u2029')

/-- `[1-3]`. -/
def isD123 : Char → Bool := fun c => c == '1' || c == '2' || c == '3'

/-- `[a-fA-F0-9]`. -/
def isHexCh : Char → Bool := fun c =>
  c.isDigit || ('a' ≤ c && c ≤ 'f') || ('A' ≤ c && c ≤ 'F')

/-- `<h[1-3]` followed by `rest` — the shared prefix of every heading
pattern in the source. -/
def headPrefix (rest : RE) : RE :=
  .seq (chE '<') (.seq (chCI 'h') (.seq (.ch isD123) rest))

/-- `<\/h[1-3]>`. -/
def headClose : RE :=
  RE.cat [chE '<', chE '/', chCI 'h', .ch isD123, chE '>']

/-- `/<h[1-3][^>]*>.*?<\/h[1-3]>/gi` (heading removal in
`extractBodyContent`). -/
def headingRemoveRE : RE :=
  headPrefix (RE.cat [.star (.ch nonGt), chE '>', .lazyStar (.ch dotCh), headClose])

/-- `/<p[^>]*class="cite"[^>]*>.*?<\/p>/gi` (cite removal in
`extractBodyContent`). -/
def citeRemoveRE : RE :=
  RE.cat [chE '<', chCI 'p', .star (.ch nonGt), litCI "class=\"cite\"",
    .star (.ch nonGt), chE '>', .lazyStar (.ch dotCh),
    chE '<', chE '/', chCI 'p', chE '>']

/-- `<(?:o₁|o₂)[^>]*>(.*?)<\/(?:c₁|c₂)>` with the `gi` flags. -/
def pairRE (opens closes : List String) : RE :=
  RE.cat [chE '<', altLits opens, .star (.ch nonGt), chE '>',
    .grp (.lazyStar (.ch dotCh)), chE '<', chE '/', altLits closes, chE '>']

/-- `/<u[^>]*>(.*?)<\/u>/gi`. -/
def underlineRE : RE := pairRE ["u"] ["u"]

/-- `/<(?:em|i)[^>]*>(.*?)<\/(?:em|i)>/gi`. -/
def emphasisRE : RE := pairRE ["em", "i"] ["em", "i"]

/-- `/<(?:strong|b)[^>]*>(.*?)<\/(?:strong|b)>/gi`. -/
def strongRE : RE := pairRE ["strong", "b"] ["strong", "b"]

/-- `/<mark[^>]*[^>]*>(.*?)<\/mark>/gi` (the doubled `[^>]*` is kept). -/
def markRE : RE :=
  RE.cat [chE '<', litCI "mark", .star (.ch nonGt), .star (.ch nonGt), chE '>',
    .grp (.lazyStar (.ch dotCh)), chE '<', chE '/', litCI "mark", chE '>']

/-- `/<span[^>]*background-color:\s*#[a-fA-F0-9]{6}[^>]*>(.*?)<\/span>/gi`. -/
def spanBgRE : RE :=
  RE.cat [chE '<', litCI "span", .star (.ch nonGt), litCI "background-color:",
    .star (.ch jsWsChar), chE '#', repN 6 (.ch isHexCh), .star (.ch nonGt),
    chE '>', .grp (.lazyStar (.ch dotCh)), chE '<', chE '/', litCI "span", chE '>']

/-- The tag pattern of `parseCardBlock`:
`/<h[1-3][^>]*(?:class="tag"[^>]*)?>([^<]+)<\/h[1-3]>|<h[1-3][^>]*>([^<]+)<\/h[1-3]>/i`.
Both alternatives capture the heading's inner text (`tagMatch[1] ||
tagMatch[2]` in the source); the matcher has a single capture slot, which
receives whichever alternative matched. -/
def tagRE : RE :=
  .alt
    (headPrefix (RE.cat [.star (.ch nonGt),
      .opt (RE.cat [litCI "class=\"tag\"", .star (.ch nonGt)]), chE '>',
      .grp (plusRE (.ch nonLt)), headClose]))
    (headPrefix (RE.cat [.star (.ch nonGt), chE '>',
      .grp (plusRE (.ch nonLt)), headClose]))

/-- First cite pattern of `parseCardBlock`:
`/<p[^>]*class="cite"[^>]*>([^<]+(?:<[^>]+>[^<]*<\/[^>]+>[^<]*)*)<\/p>/i`. -/
def citeRE1 : RE :=
  RE.cat [chE '<', chCI 'p', .star (.ch nonGt), litCI "class=\"cite\"",
    .star (.ch nonGt), chE '>',
    .grp (RE.cat [plusRE (.ch nonLt),
      .star (RE.cat [chE '<', plusRE (.ch nonGt), chE '>', .star (.ch nonLt),
        chE '<', chE '/', plusRE (.ch nonGt), chE '>', .star (.ch nonLt)])]),
    chE '<', chE '/', chCI 'p', chE '>']

/-- Second cite pattern of `parseCardBlock`:
`/<p[^>]*><(?:strong|em|b|i)[^>]*>([^<]+)<\/(?:strong|em|b|i)>[^<]*(?:\d{4}|[A-Z][a-z]+)[^<]*<\/p>/i`
(under the `i` flag, `[A-Z]` and `[a-z]` both match any ASCII letter). -/
def citeRE2 : RE :=
  RE.cat [chE '<', chCI 'p', .star (.ch nonGt), chE '>',
    chE '<', altLits ["strong", "em", "b", "i"], .star (.ch nonGt), chE '>',
    .grp (plusRE (.ch nonLt)),
    chE '<', chE '/', altLits ["strong", "em", "b", "i"], chE '>',
    .star (.ch nonLt),
    .alt (repN 4 (.ch Char.isDigit)) (.seq (.ch Char.isAlpha) (plusRE (.ch Char.isAlpha))),
    .star (.ch nonLt), chE '<', chE '/', chCI 'p', chE '>']

/-- `/<[^>]*>/g` (tag stripping in `extractBodyContent`). -/
def stripTagRE : RE :=
  RE.cat [chE '<', .star (.ch nonGt), chE '>']

/-- The card-delimiter pattern of `splitIntoCardBlocks`:
`/<h[1-3][^>]*class="tag"[^>]*>.*?<\/h[1-3]>|<h[1-3][^>]*>.*?<\/h[1-3]>/gi`. -/
def splitRE : RE :=
  .alt
    (headPrefix (RE.cat [.star (.ch nonGt), litCI "class=\"tag\"",
      .star (.ch nonGt), chE '>', .lazyStar (.ch dotCh), headClose]))
    (headPrefix (RE.cat [.star (.ch nonGt), chE '>', .lazyStar (.ch dotCh), headClose]))

/-!  ### Data model and `DocumentParser` -/

/-- One formatted element pushed by `extractBodyContent`.  The source's
object literal has no `priority` property; `trainingDataService` reads it
as possibly absent, modelled by `Option`. -/
structure SpanElem where
  type : List Char
  text : List Char
  startPosition : Nat
  endPosition : Nat
  htmlMatch : List Char
  priority : Option Int
deriving DecidableEq

structure BodyContent where
  text : List Char
  elements : List SpanElem
deriving DecidableEq

structure Card where
  tag : List Char
  cite : List Char
  bodyText : List Char
  formattedElements : List SpanElem
  rawHtml : List Char
deriving DecidableEq

/-- Insert keeping elements with `startPosition ≤` the new key in front:
together with `sortSpans` this is the stable sort
`.sort((a, b) => a.startPosition - b.startPosition)`. -/
def insertSpan (e : SpanElem) : List SpanElem → List SpanElem
  | [] => [e]
  | x :: xs =>
    if x.startPosition ≤ e.startPosition then x :: insertSpan e xs
    else e :: x :: xs

def sortSpans (l : List SpanElem) : List SpanElem :=
  l.foldl (fun acc e => insertSpan e acc) []

/-- `bodyHtml.replace(/<[^>]*>/g, ' ')`. -/
def stripTags (s : List Char) : List Char :=
  replaceGlobalRE stripTagRE [' '] s

/-- The five scan passes of `extractBodyContent`, in source order. -/
def formattingPatterns : List (List Char × RE) :=
  [("underline".toList, underlineRE),
   ("emphasis".toList, emphasisRE),
   ("strong".toList, strongRE),
   ("highlight".toList, markRE),
   ("highlight".toList, spanBgRE)]

/-- `DocumentParser.extractBodyContent`.  The locals `cleanTextVar` and
`textPosition` model the source's `let cleanText = ''` (shadowing the
method of the same name) and `let textPosition = 0`; neither is updated
before the element positions are computed — `cleanText` is only
reassigned after the scan loop, so `startPos` is always `0 + 0`. -/
def extractBodyContent (htmlBlock : List Char) : BodyContent :=
  let cleanTextVar : List Char := []
  let textPosition : Nat := 0
  let bodyHtml :=
    replaceGlobalRE citeRemoveRE [] (replaceGlobalRE headingRemoveRE [] htmlBlock)
  let elements :=
    (formattingPatterns.map (fun pat =>
      (reGlobal pat.2 bodyHtml).map (fun m =>
        let text := cleanText (m.2.2.getD [])
        let startPos := cleanTextVar.length + textPosition
        { type := pat.1, text := text, startPosition := startPos,
          endPosition := startPos + text.length,
          htmlMatch := listSlice bodyHtml m.1 (m.1 + m.2.1),
          priority := none : SpanElem }))).flatten
  let finalText := cleanText (collapseWs (stripTags bodyHtml))
  { text := finalText, elements := sortSpans elements }

/-- `DocumentParser.parseCardBlock`.  The body is wrapped in
`try/catch(return null)` in the source; none of the embedded steps can
fail, so this model always returns `some`; `none` is the model of the
catch path (see `processCardBlocks` for the caller's handling). -/
def parseCardBlock (htmlBlock : List Char) : Option Card :=
  let tag :=
    match reFindCap tagRE htmlBlock with
    | some t => cleanText t
    | none => []
  let cite :=
    match reFindCap citeRE1 htmlBlock with
    | some c => cleanText c
    | none =>
      match reFindCap citeRE2 htmlBlock with
      | some c => cleanText c
      | none => []
  let bodyContent := extractBodyContent htmlBlock
  some { tag := tag, cite := cite, bodyText := bodyContent.text,
         formattedElements := bodyContent.elements, rawHtml := htmlBlock }

/-- `DocumentParser.isValidCard`.  JS truthiness of the string fields is
modelled by the `isEmpty` tests. -/
def isValidCard (card : Card) : Bool :=
  let hasTag := !card.tag.isEmpty && decide (2 < card.tag.length)
  let hasBody := !card.bodyText.isEmpty && decide (20 < card.bodyText.length)
  let hasSomeContent := !card.cite.isEmpty || !card.formattedElements.isEmpty
  hasTag && hasBody && hasSomeContent

/-- Heading-delimited segments `[pᵢ, pᵢ₊₁)`, last one `[pₖ, end)`. -/
def headingSegments (html : List Char) : List Nat → List (List Char)
  | [] => []
  | [p] => [html.drop p]
  | p :: q :: rest => ((html.drop p).take (q - p)) :: headingSegments html (q :: rest)

/-- `DocumentParser.splitIntoCardBlocks`.  The source's `exec` loop emits:
any non-blank content before the first heading match, then one segment
per heading (from its start to the next heading's start, end of document
for the last); with no heading match, the whole document if non-blank.
Finally blocks of trimmed length `≤ 50` are filtered out. -/
def splitIntoCardBlocks (html : List Char) : List (List Char) :=
  let ms := (reGlobal splitRE html).map (fun m => m.1)
  let blocks :=
    match ms with
    | [] => if (jsTrim html).isEmpty then [] else [html]
    | p1 :: _ =>
      (if 0 < p1 && !(jsTrim (html.take p1)).isEmpty then [html.take p1] else []) ++
      headingSegments html ms
  blocks.filter (fun b => 50 < (jsTrim b).length)

/-- The per-block loop of `extractDebateCards`: a block whose parse
returned `null` (the catch path) is skipped, an invalid card is dropped,
and the loop continues with the remaining blocks. -/
def processCardBlocks (parse : List Char → Option Card) : List (List Char) → List Card
  | [] => []
  | b :: bs =>
    (match parse b with
     | some c => if isValidCard c then [c] else []
     | none => []) ++ processCardBlocks parse bs

/-- `DocumentParser.extractDebateCards` on the document's HTML content. -/
def extractDebateCards (html : List Char) : List Card :=
  processCardBlocks parseCardBlock (splitIntoCardBlocks html)

/-!  ### `TrainingDataService` -/

/-- `\d+%|\d+\s*(million|billion|trillion|percent)` matching at the head
of the input (no `i` flag: case sensitive).  Greedy `\d+` needs no
backtracking here because no continuation starts with a digit. -/
def statTestAt : List Char → Bool
  | [] => false
  | c :: rest =>
    c.isDigit &&
      (let afterDigits := rest.dropWhile Char.isDigit
       (match afterDigits with
        | '%' :: _ => true
        | _ => false) ||
       (let afterWs := afterDigits.dropWhile jsWsChar
        ["million", "billion", "trillion", "percent"].any
          (fun w => startsWithChars w.toList afterWs)))

/-- `/\d+%|\d+\s*(million|billion|trillion|percent)/.test(text)`. -/
def statTest (s : List Char) : Bool := s.tails.any statTestAt

def keyTerms : List (List Char) :=
  ["impact", "uniqueness", "link", "internal link", "solvency", "evidence",
   "proves", "shows", "demonstrates"].map String.toList

def strongLanguage : List (List Char) :=
  ["must", "will", "proves", "confirms", "establishes", "critical",
   "essential"].map String.toList

/-- `TrainingDataService.calculatePriority`: baseline 3, one decrement per
matching signal family, clamped into `[1, 5]`.  Only `element.text` is
read; `card` is an unused parameter in the source as well. -/
def calculatePriority (element : SpanElem) (_card : Card) : Int :=
  let priority0 : Int := 3
  let lower := element.text.map Char.toLower
  let priority1 :=
    if keyTerms.any (fun term => listContains lower term) then priority0 - 1
    else priority0
  let priority2 :=
    if statTest element.text then priority1 - 1 else priority1
  let priority3 :=
    if strongLanguage.any (fun word => listContains lower word) then priority2 - 1
    else priority2
  max 1 (min 5 priority3)

structure DebateContext where
  topic : List Char
  type : List Char
  urgency : List Char
deriving DecidableEq

/-- `TrainingDataService.inferDebateContext`: first matching bucket wins on
each axis; defaults `general` / `evidence` / `medium`. -/
def inferDebateContext (card : Card) : DebateContext :=
  let text := (card.tag ++ [' '] ++ card.cite ++ [' '] ++ card.bodyText).map Char.toLower
  let topic :=
    if listContains text "climate".toList || listContains text "environment".toList ||
        listContains text "warming".toList then "climate change".toList
    else if listContains text "economic".toList || listContains text "gdp".toList ||
        listContains text "market".toList then "economics".toList
    else if listContains text "security".toList || listContains text "military".toList ||
        listContains text "defense".toList then "security".toList
    else if listContains text "health".toList || listContains text "medical".toList ||
        listContains text "disease".toList then "healthcare".toList
    else "general".toList
  let argType :=
    if listContains text "impact".toList || listContains text "consequence".toList ||
        listContains text "result".toList then "impact".toList
    else if listContains text "cause".toList || listContains text "because".toList ||
        listContains text "leads to".toList then "link".toList
    else if listContains text "solve".toList || listContains text "address".toList ||
        listContains text "fix".toList then "solvency".toList
    else "evidence".toList
  { topic := topic, type := argType, urgency := "medium".toList }

/-- One span of the assistant response object
(`{ text, start, end, priority }`; the `end` field is named `endPos`
here because `end` is a Lean keyword). -/
structure RSpan where
  text : List Char
  start : Nat
  endPos : Nat
  priority : Int
deriving DecidableEq

/-- The assistant response object built by `buildFormattingResponse`
(the source serialises it with `JSON.stringify(·, null, 2)`; the
structured value is kept here, which the serialisation determines). -/
structure FormattingResponse where
  underline : List RSpan
  emphasis : List RSpan
  highlight : List RSpan
  reasoning : List Char
deriving DecidableEq

inductive MsgContent where
  | text (s : List Char)
  | json (r : FormattingResponse)
deriving DecidableEq

structure Message where
  role : List Char
  content : MsgContent
deriving DecidableEq

/-- Training-example metadata.  `cardId` keeps the raw concatenation that
`generateCardId` base64-encodes and truncates to 16 characters (the
encoding is not modelled; no claim depends on it), and the source's
`createdAt` wall-clock timestamp is not modelled. -/
structure ExMetadata where
  cardId : List Char
  tag : List Char
  source : List Char
  type : List Char
  debateContext : Option DebateContext
deriving DecidableEq

structure TrainingExample where
  messages : List Message
  metadata : ExMetadata
deriving DecidableEq

/-- `TrainingDataService.generateCardId` input content:
`` `${card.tag}_${card.cite}_${card.bodyText?.substring(0, 50)}` ``. -/
def generateCardId (card : Card) : List Char :=
  card.tag ++ ['_'] ++ card.cite ++ ['_'] ++ card.bodyText.take 50

/-- `TrainingDataService.buildCardPrompt`. -/
def buildCardPrompt (card : Card) : List Char :=
  "Please format this debate card:\n\n".toList ++
  (if !card.tag.isEmpty then "TAG: ".toList ++ card.tag ++ "\n\n".toList else []) ++
  (if !card.cite.isEmpty then "CITE: ".toList ++ card.cite ++ "\n\n".toList else []) ++
  "BODY TEXT:\n".toList ++ card.bodyText ++ "\n\n".toList ++
  "Provide formatting instructions as a JSON object with underline, emphasis, and highlight arrays.".toList

/-- One response span: `{ text, start: startPosition || 0, end:
endPosition || text.length, priority: priority || calculatePriority }`
(the `||` defaults fire on the falsy value `0` / absent field). -/
def responseSpanOf (card : Card) (e : SpanElem) : RSpan :=
  { text := e.text,
    start := e.startPosition,
    endPos := if e.endPosition == 0 then e.text.length else e.endPosition,
    priority :=
      match e.priority with
      | some p => if p == 0 then calculatePriority e card else p
      | none => calculatePriority e card }

/-- `TrainingDataService.generateFormattingReasoning`. -/
def generateFormattingReasoning (formatting : FormattingResponse)
    (context : Option DebateContext) : List Char :=
  let reasons : List (List Char) :=
    (if 0 < formatting.underline.length then
      ["Underlined ".toList ++ (Nat.repr formatting.underline.length).toList ++
       " key terms and concepts for quick identification during rounds".toList]
     else []) ++
    (if 0 < formatting.emphasis.length then
      ["Emphasized ".toList ++ (Nat.repr formatting.emphasis.length).toList ++
       " pieces of strong evidence and author conclusions".toList]
     else []) ++
    (if 0 < formatting.highlight.length then
      ["Highlighted ".toList ++ (Nat.repr formatting.highlight.length).toList ++
       " critical claims and impactful quotes".toList]
     else []) ++
    (match context with
     | some ctx =>
       ["Formatting optimized for ".toList ++ ctx.type ++
        " arguments in ".toList ++ ctx.topic ++ " debates".toList]
     | none => [])
  (List.intersperse ". ".toList reasons).flatten ++ ['.']

/-- `TrainingDataService.buildFormattingResponse`: partition the card's
elements into the three buckets by `type` (unknown types are dropped;
the parser's `strong` lands in `emphasis`), then attach the generated
reasoning. -/
def buildFormattingResponse (card : Card) (context : Option DebateContext) :
    FormattingResponse :=
  let response0 : FormattingResponse :=
    { underline :=
        (card.formattedElements.filter (fun e => e.type == "underline".toList)).map
          (responseSpanOf card),
      emphasis :=
        (card.formattedElements.filter (fun e =>
          e.type == "emphasis".toList || e.type == "em".toList ||
          e.type == "strong".toList)).map (responseSpanOf card),
      highlight :=
        (card.formattedElements.filter (fun e =>
          e.type == "highlight".toList || e.type == "mark".toList)).map
          (responseSpanOf card),
      reasoning := [] }
  { response0 with reasoning := generateFormattingReasoning response0 context }

/-- `TrainingDataService.createFormattingExample`. -/
def createFormattingExample (card : Card) : TrainingExample :=
  { messages :=
      [{ role := "system".toList, content := .text ("You are an expert debate card formatter. Analyze the provided debate card text and determine the optimal formatting for competitive debate use. Focus on:\n\n1. UNDERLINE: Key concepts, important terms, and crucial phrases that debaters need to quickly identify\n2. EMPHASIS: Strong evidence, author conclusions, and critical arguments that carry significant weight\n3. HIGHLIGHT: The most impactful claims, \"smoking gun\" quotes, and decisive evidence that could win arguments\n\nRespond with a JSON object containing formatting instructions with precise text spans and positioning.".toList) },
       { role := "user".toList, content := .text (buildCardPrompt card) },
       { role := "assistant".toList, content := .json (buildFormattingResponse card none) }],
    metadata :=
      { cardId := generateCardId card, tag := card.tag, source := card.cite,
        type := "full_formatting".toList, debateContext := none } }

/-- `TrainingDataService.extractRelevantFormatting`: spans of the full
card whose text survives (as a substring) in the truncated body. -/
def extractRelevantFormatting (partialCard fullCard : Card) : List SpanElem :=
  if partialCard.bodyText.isEmpty then []
  else fullCard.formattedElements.filter (fun e => listContains partialCard.bodyText e.text)

/-- `TrainingDataService.createPartialFormattingExample`. -/
def createPartialFormattingExample (partialCard fullCard : Card) : TrainingExample :=
  { messages :=
      [{ role := "system".toList, content := .text ("You are a debate card formatting assistant. Given partial card text, predict the likely formatting patterns based on argument structure, evidence strength, and debate utility. Even with incomplete text, identify the most important elements that should be formatted.".toList) },
       { role := "user".toList, content := .text (buildCardPrompt partialCard) },
       { role := "assistant".toList,
         content := .json (buildFormattingResponse
           { partialCard with formattedElements := extractRelevantFormatting partialCard fullCard }
           none) }],
    metadata :=
      { cardId := generateCardId partialCard, tag := partialCard.tag,
        source := partialCard.cite, type := "partial_formatting".toList,
        debateContext := none } }

/-- `TrainingDataService.createContextAwareExample`. -/
def createContextAwareExample (card : Card) : TrainingExample :=
  let debateContext := inferDebateContext card
  { messages :=
      [{ role := "system".toList,
         content := .text ("You are a specialized debate card formatter with expertise in ".toList ++ debateContext.topic ++ " arguments. Consider the debate context and argument type when making formatting decisions. Prioritize formatting that maximizes the card's utility in competitive debate rounds.".toList) },
       { role := "user".toList,
         content := .text (buildCardPrompt card ++ "\n\nContext: This appears to be ".toList ++ debateContext.type ++ " evidence for ".toList ++ debateContext.topic ++ " arguments. Format accordingly for maximum competitive debate utility.".toList) },
       { role := "assistant".toList,
         content := .json (buildFormattingResponse card (some debateContext)) }],
    metadata :=
      { cardId := generateCardId card, tag := card.tag, source := card.cite,
        type := "context_aware_formatting".toList,
        debateContext := some debateContext } }

/-- `Math.floor(length * 0.6)`, modelled in exact arithmetic (the source
computes it in binary floating point; no claim depends on the truncated
body's exact content). -/
def floor06 (n : Nat) : Nat := n * 6 / 10

/-- The partial card built inside `generateTrainingExamples`:
`{ ...card, bodyText: card.bodyText.substring(0, Math.floor(card.bodyText.length * 0.6)) }`. -/
def partialCardOf (card : Card) : Card :=
  { card with bodyText := card.bodyText.take (floor06 card.bodyText.length) }

/-- `TrainingDataService.generateTrainingExamples`: a full-formatting
example iff `bodyText` is non-empty and the card has at least one span
(the JS guard `card.formattedElements &&` is always true — arrays are
truthy), a partial example iff `bodyText` is non-empty and longer
than 100, and always one context-aware example.  The source's trailing
`filter(e => e !== null)` keeps everything, as the three creators never
return `null`. -/
def generateTrainingExamples (card : Card) : List TrainingExample :=
  (if !card.bodyText.isEmpty && decide (0 < card.formattedElements.length) then
    [createFormattingExample card]
   else []) ++
  (if !card.bodyText.isEmpty && decide (100 < card.bodyText.length) then
    [createPartialFormattingExample (partialCardOf card) card]
   else []) ++
  [createContextAwareExample card]

/-!  ### Spec-side predicates and concrete inputs used by the claims -/

/-- Spec-side predicate (from the claim's words, for comparison with the
code): each span is "positioned relative to the final flattened body
text", i.e. `bodyText[startPosition..endPosition)` is the span's text. -/
def spansAlignedWithBodyText (bc : BodyContent) : Bool :=
  bc.elements.all (fun e => listSlice bc.text e.startPosition e.endPosition == e.text)

/-- The span list is sorted by `startPosition` ascending. -/
def spansSortedByStart : List SpanElem → Bool
  | [] => true
  | [_] => true
  | a :: b :: rest =>
    decide (a.startPosition ≤ b.startPosition) && spansSortedByStart (b :: rest)

/-- The input starts with `<h` (case-insensitive) followed by `1`, `2`
or `3` — the necessary prefix of every heading-pattern match. -/
def startsHeadingB : List Char → Bool
  | a :: b :: c :: _ => (a == '<') && ciEqChar 'h' b && isD123 c
  | _ => false

/-- No position of the input starts a `<h[1-3]` sequence: the document
contains no `<h1>`/`<h2>`/`<h3>` heading element. -/
def noHeadingB (s : List Char) : Bool :=
  s.tails.all (fun t => !startsHeadingB t)

/-- The end-to-end example block of the spec (§8). -/
def c7block : List Char :=
  ("<h1>Warming Impact</h1><p class=\"cite\">Smith 2020</p>" ++
   "<p>Sea levels <u>will rise dramatically</u> and " ++
   "<mark>50% of coastal cities</mark> are at risk.</p>").toList

/-- An HTML block whose single underline span sits at offset 12 of the
flattened body text. -/
def c1ex : List Char := "<p>Hello world <u>again</u></p>".toList

/-- A heading-less document of trimmed length greater than 50. -/
def c6ex : List Char :=
  "<p>aaaaaaaaaaaaaaaaaaaaaaaaaaaaaaaaaaaaaaaaaaaaaaaaaaaaaaaa</p>".toList

/-- A card whose heading text is `"Hi"` but with abundant body text,
a citation and formatted content. -/
def cardHi : Card :=
  { tag := "Hi".toList,
    cite := "Smith 2020".toList,
    bodyText := "This body text is plenty long enough to pass the length test.".toList,
    formattedElements :=
      [{ type := "underline".toList, text := "plenty long".toList,
         startPosition := 0, endPosition := 11, htmlMatch := [], priority := none }],
    rawHtml := [] }

def dummyCard : Card :=
  { tag := [], cite := [], bodyText := [], formattedElements := [], rawHtml := [] }

/-- The span text of the spec's priority-clamp test. -/
def c5span : SpanElem :=
  { type := "underline".toList,
    text := "proves a 50% increase, which is critical".toList,
    startPosition := 0, endPosition := 0, htmlMatch := [], priority := none }

/-- Span texts matching zero, one, and three signal families. -/
def c10spanA : SpanElem :=
  { type := "underline".toList, text := "The sky is blue today".toList,
    startPosition := 0, endPosition := 0, htmlMatch := [], priority := none }

def c10spanB : SpanElem :=
  { type := "underline".toList, text := "impact".toList,
    startPosition := 0, endPosition := 0, htmlMatch := [], priority := none }

def c10spanC : SpanElem :=
  { type := "underline".toList, text := "evidence proves a 10% shift".toList,
    startPosition := 0, endPosition := 0, htmlMatch := [], priority := none }

/-!  ### Theorems -/

set_option maxRecDepth 100000

theorem mem_insertSpan {a e : SpanElem} :
    ∀ {l : List SpanElem}, a ∈ insertSpan e l → a = e ∨ a ∈ l := by
  intro l
  induction l with
  | nil => intro h; simpa [insertSpan] using h
  | cons x xs ih =>
    intro h
    simp only [insertSpan] at h
    split at h
    · rcases List.mem_cons.mp h with h' | h'
      · exact Or.inr (h' ▸ List.mem_cons_self x xs)
      · rcases ih h' with h'' | h''
        · exact Or.inl h''
        · exact Or.inr (List.mem_cons_of_mem x h'')
    · rcases List.mem_cons.mp h with h' | h'
      · exact Or.inl h'
      · exact Or.inr h'

theorem mem_foldl_insertSpan :
    ∀ (l acc : List SpanElem) (a : SpanElem),
      a ∈ l.foldl (fun acc e => insertSpan e acc) acc → a ∈ acc ∨ a ∈ l := by
  intro l
  induction l with
  | nil => intro acc a h; exact Or.inl h
  | cons x xs ih =>
    intro acc a h
    simp only [List.foldl_cons] at h
    rcases ih _ a h with h' | h'
    · rcases mem_insertSpan h' with rfl | h''
      · exact Or.inr (List.mem_cons_self _ _)
      · exact Or.inl h''
    · exact Or.inr (List.mem_cons_of_mem x h')

theorem mem_sortSpans {a : SpanElem} {l : List SpanElem} (h : a ∈ sortSpans l) :
    a ∈ l := by
  rcases mem_foldl_insertSpan l [] a h with h' | h'
  · simp at h'
  · exact h'

/-- Every element emitted by the scan loop of `extractBodyContent` carries
`startPosition = 0` (the never-updated accumulators) and
`endPosition = text.length`. -/
theorem extractBody_positions (htmlBlock : List Char) :
    ∀ e ∈ (extractBodyContent htmlBlock).elements,
      e.startPosition = 0 ∧ e.endPosition = e.text.length := by
  intro e he
  simp only [extractBodyContent] at he
  have he' := mem_sortSpans he
  simp only [List.mem_flatten, List.mem_map] at he'
  obtain ⟨l, ⟨pat, hpat, rfl⟩, hel⟩ := he'
  obtain ⟨m, hm, rfl⟩ := List.mem_map.mp hel
  simp

/-- Claim C2 (confirmed): every span emitted by `extractBodyContent` has
`startPosition = 0` and `endPosition` equal to the length of its cleaned
inner text — the clean-body-text variable is still the empty string and
the `textPosition` counter still `0` when each span's position is
assigned. -/
theorem claim_C2 (htmlBlock : List Char) :
    (extractBodyContent htmlBlock).elements.all
      (fun e => e.startPosition == 0 && e.endPosition == e.text.length) = true := by
  rw [List.all_eq_true]
  intro e he
  obtain ⟨h1, h2⟩ := extractBody_positions htmlBlock e he
  simp [h1, h2]

/-- Claim C1, amended (the code never advances the accumulators): every
span's `startPosition` is `0` — the empty clean-text accumulator plus the
zero offset counter — for every HTML block, so spans are not positioned
relative to the final flattened body text. -/
theorem claim_C1 (htmlBlock : List Char) :
    (extractBodyContent htmlBlock).elements.map (fun e => e.startPosition) =
      List.replicate (extractBodyContent htmlBlock).elements.length 0 := by
  have h : ∀ b ∈ (extractBodyContent htmlBlock).elements.map (fun e => e.startPosition),
      b = 0 := by
    intro b hb
    obtain ⟨e, he, rfl⟩ := List.mem_map.mp hb
    exact (extractBody_positions htmlBlock e he).1
  calc (extractBodyContent htmlBlock).elements.map (fun e => e.startPosition)
      = List.replicate ((extractBodyContent htmlBlock).elements.map
          (fun e => e.startPosition)).length 0 := List.eq_replicate_of_mem h
    _ = List.replicate (extractBodyContent htmlBlock).elements.length 0 := by
        rw [List.length_map]

/-- Claim C1, counterexample: on `c1ex` the single underline span has
`startPosition = 0` although its text occurs only at offset 12 of the
flattened body text, so spans are not positioned relative to the final
flattened `bodyText` as the claim states. -/
theorem claim_C1_counterexample :
    spansAlignedWithBodyText (extractBodyContent c1ex) = false
  ∧ (extractBodyContent c1ex).text = "Hello world again".toList
  ∧ (extractBodyContent c1ex).elements.map (fun e => (e.text, e.startPosition)) =
      [("again".toList, 0)]
  ∧ listContains (extractBodyContent c1ex).text "again".toList = true := by
  refine ⟨by decide, by decide, by decide, by decide⟩

/-- A heading pattern cannot match at a position that does not start with
`<h[1-3]` (case-insensitive). -/
theorem reMatchAux_headPrefix_none {β : Type}
    (deeper : Option (RE → List Char → Option (List Char) →
      (List Char → Option (List Char) → Option β) → Option β))
    (rest : RE) :
    ∀ (s : List Char), startsHeadingB s = false →
    ∀ (cap : Option (List Char)) (k : List Char → Option (List Char) → Option β),
      reMatchAux deeper (headPrefix rest) s cap k = none := by
  intro s hs cap k
  rcases s with _ | ⟨a, _ | ⟨b, _ | ⟨c, s3⟩⟩⟩
  · simp [headPrefix, chE, reMatchAux]
  · simp only [headPrefix, chE, chCI, reMatchAux]
    split <;> simp [reMatchAux]
  · simp only [headPrefix, chE, chCI, reMatchAux]
    split
    · split <;> simp [reMatchAux]
    · rfl
  · simp only [startsHeadingB] at hs
    simp only [headPrefix, chE, chCI, reMatchAux]
    by_cases h1 : (a == '<') = true
    · by_cases h2 : ciEqChar 'h' b = true
      · by_cases h3 : isD123 c = true
        · exfalso; rw [h1, h2, h3] at hs; simp at hs
        · simp [h1, h2, h3, reMatchAux]
      · simp [h1, h2, reMatchAux]
    · simp [h1, reMatchAux]

theorem reMatchAux_headAlt_none {β : Type}
    (deeper : Option (RE → List Char → Option (List Char) →
      (List Char → Option (List Char) → Option β) → Option β))
    (r1 r2 : RE) (s : List Char) (hs : startsHeadingB s = false)
    (cap : Option (List Char)) (k : List Char → Option (List Char) → Option β) :
    reMatchAux deeper (RE.alt (headPrefix r1) (headPrefix r2)) s cap k = none := by
  have h1 := reMatchAux_headPrefix_none deeper r1 s hs cap k
  have h2 := reMatchAux_headPrefix_none deeper r2 s hs cap k
  show optOr (reMatchAux deeper (headPrefix r1) s cap k)
      (fun _ => reMatchAux deeper (headPrefix r2) s cap k) = none
  rw [h1]
  show reMatchAux deeper (headPrefix r2) s cap k = none
  exact h2

theorem reMatch_headAlt_none {β : Type} (fuel : Nat) (r1 r2 : RE)
    (s : List Char) (hs : startsHeadingB s = false)
    (cap : Option (List Char)) (k : List Char → Option (List Char) → Option β) :
    reMatch fuel (RE.alt (headPrefix r1) (headPrefix r2)) s cap k = none := by
  cases fuel with
  | zero => exact reMatchAux_headAlt_none none r1 r2 s hs cap k
  | succ n => exact reMatchAux_headAlt_none (some (reMatch n)) r1 r2 s hs cap k

theorem reFindAux_headAlt_none (r1 r2 : RE) :
    ∀ (s : List Char), noHeadingB s = true → ∀ (idx : Nat),
      reFindAux (RE.alt (headPrefix r1) (headPrefix r2)) s idx = none := by
  intro s
  induction s with
  | nil =>
    intro _ idx
    have hm := reMatch_headAlt_none (reFuel []) r1 r2 [] (by decide) none
      (fun rest cap => some (rest.length, cap))
    simp [reFindAux, hm]
  | cons c s' ih =>
    intro h idx
    have h' : (!startsHeadingB (c :: s')) = true ∧ noHeadingB s' = true := by
      simpa [noHeadingB, List.tails_cons] using h
    have hm := reMatch_headAlt_none (reFuel (c :: s')) r1 r2 (c :: s')
      (by simpa using h'.1) none (fun rest cap => some (rest.length, cap))
    simp only [reFindAux, hm]
    exact ih h'.2 (idx + 1)

theorem reGlobal_split_none (html : List Char) (h : noHeadingB html = true) :
    reGlobal splitRE html = [] := by
  have hf : reFind splitRE html = none := reFindAux_headAlt_none _ _ html h 0
  simp [reGlobal, reGlobalAux, hf]

theorem reFind_tagRE_none (html : List Char) (h : noHeadingB html = true) :
    reFind tagRE html = none :=
  reFindAux_headAlt_none _ _ html h 0

/-- Claim C6, amended: a document with no `<h1>`/`<h2>`/`<h3>` heading
element yields zero cards from `extractDebateCards`; the Card Block
Splitter, however, returns the whole document as a single block whenever
its trimmed length exceeds 50 characters, and zero blocks only
otherwise. -/
theorem claim_C6 (html : List Char) (h : noHeadingB html = true) :
    extractDebateCards html = []
  ∧ splitIntoCardBlocks html =
      (if 50 < (jsTrim html).length then [html] else []) := by
  have hsplit : splitIntoCardBlocks html =
      (if 50 < (jsTrim html).length then [html] else []) := by
    rw [splitIntoCardBlocks, reGlobal_split_none html h]
    by_cases he : (jsTrim html).isEmpty
    · have h0 : (jsTrim html).length = 0 := by
        rw [List.isEmpty_iff] at he
        simp [he]
      simp [he, h0]
    · simp only [he, Bool.false_eq_true, if_false, List.filter]
      by_cases h50 : 50 < (jsTrim html).length
      · simp [h50]
      · simp [h50]
  refine ⟨?_, hsplit⟩
  rw [extractDebateCards, hsplit]
  by_cases h50 : 50 < (jsTrim html).length
  · rw [if_pos h50]
    have htag : reFindCap tagRE html = none := by
      rw [reFindCap, reFind_tagRE_none html h]
    simp only [processCardBlocks, parseCardBlock, htag]
    simp [isValidCard]
  · rw [if_neg h50]
    rfl

/-- Claim C6, counterexample to the claim as stated: `c6ex` contains no
heading element, yet `splitIntoCardBlocks` returns one block (the whole
document, whose trimmed length exceeds 50) rather than zero; the
zero-cards consequence still holds. -/
theorem claim_C6_counterexample :
    noHeadingB c6ex = true
  ∧ splitIntoCardBlocks c6ex ≠ []
  ∧ extractDebateCards c6ex = [] := by
  refine ⟨by decide, by decide, by decide⟩

/-- Witness for `claim_C6` at a concrete heading-less document. -/
theorem claim_C6_witness :
    noHeadingB "just some plain text".toList = true
  ∧ extractDebateCards "just some plain text".toList = [] :=
  ⟨by decide, (claim_C6 "just some plain text".toList (by decide)).1⟩

/-- Every card kept by the per-block loop passed `isValidCard`. -/
theorem processCardBlocks_valid (parse : List Char → Option Card) :
    ∀ (bs : List (List Char)), ∀ c ∈ processCardBlocks parse bs,
      isValidCard c = true := by
  intro bs
  induction bs with
  | nil => intro c hc; simp [processCardBlocks] at hc
  | cons b bs ih =>
    intro c hc
    simp only [processCardBlocks] at hc
    rcases List.mem_append.mp hc with h | h
    · cases hp : parse b with
      | none => rw [hp] at h; simp at h
      | some c' =>
        rw [hp] at h
        by_cases hv : isValidCard c' = true
        · simp only [hv, if_true, List.mem_singleton] at h
          subst h
          exact hv
        · simp [hv] at h
    · exact ih c h

/-- Claim C3 (confirmed): `isValidCard` accepts exactly the cards with
`tag` longer than 2, `bodyText` longer than 20, and a non-empty `cite` or
at least one span; a card whose tag is `"Hi"` is rejected even with
abundant formatted content; and every card in the `extractDebateCards`
output passed `isValidCard` (invalid ones are silently dropped). -/
theorem claim_C3 :
    (∀ card : Card, isValidCard card = true ↔
      (2 < card.tag.length ∧ 20 < card.bodyText.length ∧
        (card.cite ≠ [] ∨ card.formattedElements ≠ [])))
  ∧ isValidCard cardHi = false
  ∧ (∀ html : List Char, (extractDebateCards html).all (fun c => isValidCard c) = true) := by
  refine ⟨?_, by decide, ?_⟩
  · intro card
    simp only [isValidCard, Bool.and_eq_true, Bool.or_eq_true, Bool.not_eq_true',
      List.isEmpty_eq_false, decide_eq_true_eq, List.isEmpty_iff]
    constructor
    · rintro ⟨⟨⟨-, ht⟩, -, hb⟩, hc⟩
      exact ⟨ht, hb, hc⟩
    · rintro ⟨ht, hb, hc⟩
      refine ⟨⟨⟨?_, ht⟩, ?_, hb⟩, hc⟩
      · intro hnil; rw [hnil] at ht; simp at ht
      · intro hnil; rw [hnil] at hb; simp at hb
  · intro html
    rw [List.all_eq_true]
    intro c hc
    simpa using processCardBlocks_valid parseCardBlock (splitIntoCardBlocks html) c (by simpa using hc)

theorem metaType_full (card : Card) :
    (createFormattingExample card).metadata.type = "full_formatting".toList := rfl

theorem metaType_partialEx (partialCard fullCard : Card) :
    (createPartialFormattingExample partialCard fullCard).metadata.type =
      "partial_formatting".toList := rfl

theorem metaType_ctx (card : Card) :
    (createContextAwareExample card).metadata.type =
      "context_aware_formatting".toList := rfl

/-- `bodyText` longer than 100 characters is in particular non-empty. -/
theorem bodyLong_not_isEmpty {card : Card} (h : 100 < card.bodyText.length) :
    card.bodyText.isEmpty = false := by
  rcases hb : card.bodyText with _ | _
  · rw [hb] at h; simp at h
  · rfl

/-- Claim C4 (confirmed): one `context_aware` example always; one
`full_formatting` example iff `bodyText` is non-empty and the card has at
least one span; one `partial_formatting` example iff
`bodyText.length > 100`; and the total count is the sum of the three
gates — so a valid card with a span and body longer than 100 yields 3
examples, one with no spans and body length 50 yields 1, and body
length 100 yields no partial example while 101 does. -/
theorem claim_C4 (card : Card) :
    ((generateTrainingExamples card).countP
        (fun e => e.metadata.type == "context_aware_formatting".toList) = 1)
  ∧ ((generateTrainingExamples card).countP
        (fun e => e.metadata.type == "full_formatting".toList) =
      if !card.bodyText.isEmpty && decide (0 < card.formattedElements.length)
      then 1 else 0)
  ∧ ((generateTrainingExamples card).countP
        (fun e => e.metadata.type == "partial_formatting".toList) =
      if 100 < card.bodyText.length then 1 else 0)
  ∧ ((generateTrainingExamples card).length =
      (if !card.bodyText.isEmpty && decide (0 < card.formattedElements.length)
       then 1 else 0) +
      (if 100 < card.bodyText.length then 1 else 0) + 1) := by
  have hgate : (!card.bodyText.isEmpty && decide (100 < card.bodyText.length)) =
      decide (100 < card.bodyText.length) := by
    by_cases h : 100 < card.bodyText.length
    · simp [h, bodyLong_not_isEmpty h]
    · simp [h]
  by_cases hA : (!card.bodyText.isEmpty && decide (0 < card.formattedElements.length)) = true
  · by_cases hB : 100 < card.bodyText.length
    · have hne : card.bodyText ≠ [] := by
        intro h0; rw [h0] at hB; simp at hB
      simp [generateTrainingExamples, hgate, hA, hB, hne, List.countP_cons,
        List.countP_append, metaType_full, metaType_partialEx, metaType_ctx,
        List.countP_nil]
    · simp [generateTrainingExamples, hgate, hA, hB, List.countP_cons, List.countP_append,
        metaType_full, metaType_partialEx, metaType_ctx, List.countP_nil]
  · by_cases hB : 100 < card.bodyText.length
    · have hne : card.bodyText ≠ [] := by
        intro h0; rw [h0] at hB; simp at hB
      simp [generateTrainingExamples, hgate, hA, hB, hne, List.countP_cons,
        List.countP_append, metaType_full, metaType_partialEx, metaType_ctx,
        List.countP_nil]
    · simp [generateTrainingExamples, hgate, hA, hB, List.countP_cons, List.countP_append,
        metaType_full, metaType_partialEx, metaType_ctx, List.countP_nil]

/-- Claim C5 (confirmed): the Priority Scorer always returns an integer
in `[1, 5]`, depends only on the span's text (it is pure and
deterministic; the decrement structure is the definition itself), and on
the text `"proves a 50% increase, which is critical"` it returns
exactly 1 (three decrements from baseline 3, clamped at the floor 1). -/
theorem claim_C5 :
    (∀ (e : SpanElem) (c : Card),
      1 ≤ calculatePriority e c ∧ calculatePriority e c ≤ 5)
  ∧ (∀ (ty1 t : List Char) (s1 e1 : Nat) (h1 : List Char) (p1 : Option Int)
       (ty2 : List Char) (s2 e2 : Nat) (h2 : List Char) (p2 : Option Int)
       (c1 c2 : Card),
      calculatePriority ⟨ty1, t, s1, e1, h1, p1⟩ c1 =
        calculatePriority ⟨ty2, t, s2, e2, h2, p2⟩ c2)
  ∧ calculatePriority c5span dummyCard = 1 := by
  refine ⟨?_, ?_, by decide⟩
  · intro e c
    exact ⟨le_max_left 1 _, max_le (by norm_num) (min_le_left 5 _)⟩
  · intro ty1 t s1 e1 h1 p1 ty2 s2 e2 h2 p2 c1 c2
    rfl

/-- Claim C10 (confirmed): the Priority Scorer never returns more than 3 —
it only decrements from the baseline 3 and the upper clamp at 5 is
unreachable — and each value of the effective range `[1, 3]` is attained
(by a text matching zero, one, and three signal families). -/
theorem claim_C10 :
    (∀ (e : SpanElem) (c : Card),
      1 ≤ calculatePriority e c ∧ calculatePriority e c ≤ 3)
  ∧ calculatePriority c10spanA dummyCard = 3
  ∧ calculatePriority c10spanB dummyCard = 2
  ∧ calculatePriority c10spanC dummyCard = 1 := by
  refine ⟨?_, by decide, by decide, by decide⟩
  intro e c
  refine ⟨le_max_left 1 _, ?_⟩
  simp only [calculatePriority]
  split <;> split <;> split <;> decide

/-- Claim C7 (confirmed): the spec's end-to-end block parses to the tag
`"Warming Impact"`, cite `"Smith 2020"`, a `bodyText` containing the
expected sentence, and exactly an underline span `"will rise
dramatically"` followed by a highlight span `"50% of coastal cities"`,
the list being sorted by `startPosition`. -/
theorem claim_C7 :
    ((parseCardBlock c7block).map (fun c => (c.tag, c.cite)) =
      some ("Warming Impact".toList, "Smith 2020".toList))
  ∧ ((parseCardBlock c7block).map (fun c =>
        listContains c.bodyText
          "Sea levels will rise dramatically and 50% of coastal cities are at risk.".toList) =
      some true)
  ∧ ((parseCardBlock c7block).map
        (fun c => c.formattedElements.map (fun e => (e.type, e.text))) =
      some [("underline".toList, "will rise dramatically".toList),
            ("highlight".toList, "50% of coastal cities".toList)])
  ∧ ((parseCardBlock c7block).map (fun c => spansSortedByStart c.formattedElements) =
      some true) := by
  refine ⟨by decide, by decide, by decide, by decide⟩

/-- Claim C8 (confirmed): `extractDebateCards` is the per-block loop over
the split blocks, and in that loop a block whose parse comes back `none`
(the model of `parseCardBlock`'s catch-and-return-null path) is skipped
while all remaining blocks are still processed — a single bad block never
aborts the batch. -/
theorem claim_C8 :
    (∀ html : List Char,
      extractDebateCards html =
        processCardBlocks parseCardBlock (splitIntoCardBlocks html))
  ∧ (∀ (parse : List Char → Option Card) (bs1 : List (List Char)) (b : List Char)
       (bs2 : List (List Char)), parse b = none →
      processCardBlocks parse (bs1 ++ b :: bs2) =
        processCardBlocks parse (bs1 ++ bs2)) := by
  refine ⟨fun _ => rfl, ?_⟩
  intro parse bs1 b bs2 hb
  induction bs1 with
  | nil => simp [processCardBlocks, hb]
  | cons x xs ih =>
    simp only [List.cons_append, processCardBlocks]
    exact congrArg _ ih

/-- Witness for `claim_C8`: a parser that reports a parse failure on the
middle block leaves the surrounding blocks' processing unchanged. -/
theorem claim_C8_witness :
    processCardBlocks (fun _ => none)
        (["a".toList] ++ "bad".toList :: ["c".toList]) =
      processCardBlocks (fun _ => none) (["a".toList] ++ ["c".toList]) :=
  claim_C8.2 (fun _ => none) ["a".toList] "bad".toList ["c".toList] rfl

/-- Claim C9 (confirmed): `extractDebateCards` is a pure function of the
document HTML — two invocations on equal inputs return identical card
sequences.  (The embedding is deterministic by construction; the source's
extraction path reads no ambient state.) -/
theorem claim_C9 (d1 d2 : List Char) (h : d1 = d2) :
    extractDebateCards d1 = extractDebateCards d2 := by
  rw [h]

/-- Witness for `claim_C9` at a concrete document. -/
theorem claim_C9_witness :
    extractDebateCards "<p>doc</p>".toList = extractDebateCards "<p>doc</p>".toList :=
  claim_C9 "<p>doc</p>".toList "<p>doc</p>".toList rfl
